import Mathlib

/-!
# Verification of the fe-pilot core against its specification

Shallow embedding of the fe-pilot browser-pilot core:
the action executor (`src/core/executor.ts`), the observation engine
(`src/core/observer.ts`), the autonomous exploration loop
(`Explorer.explore`), the file-based exchange protocol
(`AICommunicator`), and the scenario validator (`ScenarioParser`).

Each definition is translated from the TypeScript source; theorems
settle the specification claims about repetition guarding, observation
deltas, batch checkpointing, unknown-action handling, selector fallback
chains, exchange timeouts, the one-shot decision mailbox, wait-condition
semantics, terminal failure reasons, and the `stopOnError` default.
-/

namespace FePilot

/-! ## Actions

Mirror of the `Action` interface in `src/types/index.ts` (only the
fields the executor, validator and claims touch).  `action` is the
tag string; in the source, absent optional fields are `undefined`,
embedded here as `none`. -/

structure Action where
  action : String
  selector : Option String := none
  value : Option String := none
  url : Option String := none
  duration : Option Nat := none
  dropdown : Option String := none
  option : Option String := none
  option_index : Option Nat := none
  date : Option String := none
  assert_type : Option String := none
  key : Option String := none
  force : Option Bool := none
  retryMaxAttempts : Option Nat := none
  deriving Repr, DecidableEq

/-! ## C1 — repetition guard (`ActionExecutor.execute`, executor.ts 30-40)

The executor keeps `lastAction` (fingerprint string) and
`actionRepeatCount`.  On each `execute` call it computes
`actionKey = action + ":" + (selector || "") + ":" + (value || "")`;
if it equals `lastAction` it increments the counter and throws
`RepeatedActionLimit` when the counter reaches `MAX_ACTION_REPEATS`,
before `executeOnce` (the browser driver) is reached; otherwise the
fingerprint is stored and the counter reset to 1. -/

def MAX_ACTION_REPEATS : Nat := 3

def actionKey (a : Action) : String :=
  a.action ++ ":" ++ a.selector.getD "" ++ ":" ++ a.value.getD ""

structure GuardState where
  lastAction : String := ""
  actionRepeatCount : Nat := 0
  deriving Repr, DecidableEq

/-- Outcome of one `execute` call, restricted to the repetition guard
and whether the browser driver (`executeOnce`) was reached.  In the
source the throw happens before the attempt loop, so on
`raisedRepeatedLimit` the driver is not invoked. -/
structure GuardOutcome where
  state : GuardState
  raisedRepeatedLimit : Bool
  driverInvoked : Bool
  deriving Repr, DecidableEq

/-- The repetition-guard prefix of `ActionExecutor.execute`
(executor.ts lines 30-40), plus the fact that control reaches the
attempt loop (driver invocation) exactly when the guard does not throw. -/
def executeGuard (s : GuardState) (a : Action) : GuardOutcome :=
  if actionKey a = s.lastAction then
    if MAX_ACTION_REPEATS ≤ s.actionRepeatCount + 1 then
      { state := { s with actionRepeatCount := s.actionRepeatCount + 1 },
        raisedRepeatedLimit := true, driverInvoked := false }
    else
      { state := { s with actionRepeatCount := s.actionRepeatCount + 1 },
        raisedRepeatedLimit := false, driverInvoked := true }
  else
    { state := { lastAction := actionKey a, actionRepeatCount := 1 },
      raisedRepeatedLimit := false, driverInvoked := true }

/-- On a matching fingerprint the stored fingerprint is unchanged and
the counter is incremented, whether or not the limit is raised. -/
lemma executeGuard_state_of_same {s : GuardState} {a : Action}
    (h : actionKey a = s.lastAction) :
    (executeGuard s a).state.lastAction = s.lastAction ∧
    (executeGuard s a).state.actionRepeatCount = s.actionRepeatCount + 1 := by
  unfold executeGuard
  rw [if_pos h]
  split <;> simp

/-- On a matching fingerprint with the counter already at the limit
after increment, the guard raises and the driver is not invoked. -/
lemma executeGuard_raises_of_same {s : GuardState} {a : Action}
    (h : actionKey a = s.lastAction)
    (h3 : MAX_ACTION_REPEATS ≤ s.actionRepeatCount + 1) :
    (executeGuard s a).raisedRepeatedLimit = true ∧
    (executeGuard s a).driverInvoked = false := by
  unfold executeGuard
  rw [if_pos h, if_pos h3]
  exact ⟨rfl, rfl⟩

/-- C1: for any executor state, if three consecutive `execute` calls
carry an identical fingerprint (kind, selector, value), the third call
raises `RepeatedActionLimit` and does not invoke the browser driver;
and any call whose fingerprint differs from the stored one resets the
repetition count to 1. -/
theorem repetition_guard_third_call_fails
    (s : GuardState) (a₁ a₂ a₃ b : Action)
    (h12 : actionKey a₁ = actionKey a₂) (h23 : actionKey a₂ = actionKey a₃) :
    let o₁ := executeGuard s a₁
    let o₂ := executeGuard o₁.state a₂
    let o₃ := executeGuard o₂.state a₃
    o₃.raisedRepeatedLimit = true ∧ o₃.driverInvoked = false ∧
      (actionKey b ≠ s.lastAction →
        (executeGuard s b).state.actionRepeatCount = 1) := by
  intro o₁ o₂ o₃
  have reset : actionKey b ≠ s.lastAction →
      (executeGuard s b).state.actionRepeatCount = 1 := by
    intro hb
    unfold executeGuard
    rw [if_neg hb]
  by_cases h : actionKey a₁ = s.lastAction
  · -- the stored fingerprint already matches: counters only grow
    obtain ⟨hl1, hc1⟩ := executeGuard_state_of_same h
    have h2 : actionKey a₂ = o₁.state.lastAction := by
      rw [hl1, ← h12]; exact h
    obtain ⟨hl2, hc2⟩ := executeGuard_state_of_same h2
    have h3 : actionKey a₃ = o₂.state.lastAction := by
      rw [hl2, hl1, ← h23, ← h12]; exact h
    have hge : MAX_ACTION_REPEATS ≤ o₂.state.actionRepeatCount + 1 := by
      rw [hc2, hc1]
      unfold MAX_ACTION_REPEATS
      omega
    obtain ⟨hr, hd⟩ := executeGuard_raises_of_same h3 hge
    exact ⟨hr, hd, reset⟩
  · -- fresh fingerprint: the count restarts at 1, reaching 3 on the third call
    have hs1 : o₁.state = { lastAction := actionKey a₁, actionRepeatCount := 1 } := by
      show (executeGuard s a₁).state = _
      unfold executeGuard
      rw [if_neg h]
    have h2 : actionKey a₂ = o₁.state.lastAction := by rw [hs1, ← h12]
    obtain ⟨hl2, hc2⟩ := executeGuard_state_of_same h2
    have h3 : actionKey a₃ = o₂.state.lastAction := by
      rw [hl2, hs1]
      exact (h23.symm.trans h12.symm)
    have hge : MAX_ACTION_REPEATS ≤ o₂.state.actionRepeatCount + 1 := by
      rw [hc2, hs1]
      show MAX_ACTION_REPEATS ≤ 1 + 1 + 1
      unfold MAX_ACTION_REPEATS
      omega
    obtain ⟨hr, hd⟩ := executeGuard_raises_of_same h3 hge
    exact ⟨hr, hd, reset⟩

/-- Witness for `repetition_guard_third_call_fails`: three consecutive
clicks on the same selector; the third raises the limit without
reaching the driver, and a navigate with a fresh fingerprint resets the
count. -/
theorem repetition_guard_third_call_fails_witness :
    let click : Action := { action := "click", selector := some "#btn" }
    let nav : Action := { action := "navigate", url := some "https://x.test" }
    let s : GuardState := {}
    (executeGuard (executeGuard (executeGuard s click).state click).state
        click).raisedRepeatedLimit = true ∧
    (executeGuard (executeGuard (executeGuard s click).state click).state
        click).driverInvoked = false ∧
    (actionKey nav ≠ s.lastAction →
      (executeGuard s nav).state.actionRepeatCount = 1) := by
  intro click nav s
  have h := repetition_guard_third_call_fails s click click click nav rfl rfl
  exact h

/-! ## C2 — observation deltas (`Observer`, observer.ts 10-113)

The observer appends every console message and network response to
`consoleLogs` / `networkRequests` and keeps `lastObservationIndex`, a
pair of read cursors.  `captureObservation` returns
`consoleLogs.slice(cursor)` / `networkRequests.slice(cursor)` as the
deltas and then advances each cursor to the current log length.  The
event payload types are irrelevant to the cursor logic, so the state is
parametric in them. -/

structure ObserverState (α β : Type) where
  consoleLogs : List α := []
  networkRequests : List β := []
  cursorConsole : Nat := 0
  cursorNetwork : Nat := 0

/-- The `page.on('console', ...)` handler: append to the console log. -/
def recordConsole {α β : Type} (s : ObserverState α β) (e : α) : ObserverState α β :=
  { s with consoleLogs := s.consoleLogs ++ [e] }

/-- The `page.on('response', ...)` handler: append to the network log. -/
def recordNetwork {α β : Type} (s : ObserverState α β) (e : β) : ObserverState α β :=
  { s with networkRequests := s.networkRequests ++ [e] }

/-- The delta logic of `Observer.captureObservation` (observer.ts
102-105): `newConsoleLogs` / `newNetworkRequests` are the slices from
the cursors to the end, and both cursors advance to the current log
lengths. -/
def captureObservation {α β : Type} (s : ObserverState α β) :
    (List α × List β) × ObserverState α β :=
  ((s.consoleLogs.drop s.cursorConsole, s.networkRequests.drop s.cursorNetwork),
   { s with cursorConsole := s.consoleLogs.length,
            cursorNetwork := s.networkRequests.length })

/-- One session event as seen by the observer: a console message
arriving, a network response arriving, or a capture. -/
inductive ObsEvent (α β : Type)
  | console (e : α)
  | network (e : β)
  | capture

/-- Run the observer over a sequence of events, collecting the delta
pair returned by each capture. -/
def runObserver {α β : Type} :
    List (ObsEvent α β) → ObserverState α β →
    ObserverState α β × List (List α × List β)
  | [], s => (s, [])
  | .console e :: rest, s => runObserver rest (recordConsole s e)
  | .network e :: rest, s => runObserver rest (recordNetwork s e)
  | .capture :: rest, s =>
      ((runObserver rest (captureObservation s).2).1,
       (captureObservation s).1 :: (runObserver rest (captureObservation s).2).2)

/-- Cursor invariant of the observer, for an arbitrary start state:
cursors are monotone and within bounds, the log prefix below the start
cursor is never rewritten, and the concatenation of all captured deltas
is exactly the slice of the final log between the start cursor and the
final cursor. -/
lemma runObserver_invariant {α β : Type} (ops : List (ObsEvent α β)) :
    ∀ s : ObserverState α β,
      s.cursorConsole ≤ s.consoleLogs.length →
      s.cursorNetwork ≤ s.networkRequests.length →
      s.cursorConsole ≤ (runObserver ops s).1.cursorConsole ∧
      s.cursorNetwork ≤ (runObserver ops s).1.cursorNetwork ∧
      (runObserver ops s).1.cursorConsole ≤ (runObserver ops s).1.consoleLogs.length ∧
      (runObserver ops s).1.cursorNetwork ≤ (runObserver ops s).1.networkRequests.length ∧
      (runObserver ops s).1.consoleLogs.take s.cursorConsole =
        s.consoleLogs.take s.cursorConsole ∧
      (runObserver ops s).1.networkRequests.take s.cursorNetwork =
        s.networkRequests.take s.cursorNetwork ∧
      ((runObserver ops s).2.map Prod.fst).flatten =
        ((runObserver ops s).1.consoleLogs.take
          (runObserver ops s).1.cursorConsole).drop s.cursorConsole ∧
      ((runObserver ops s).2.map Prod.snd).flatten =
        ((runObserver ops s).1.networkRequests.take
          (runObserver ops s).1.cursorNetwork).drop s.cursorNetwork := by
  induction ops with
  | nil =>
      intro s hc hn
      refine ⟨le_refl _, le_refl _, hc, hn, rfl, rfl, ?_, ?_⟩
      · show ([] : List α) = (s.consoleLogs.take s.cursorConsole).drop s.cursorConsole
        exact (List.drop_eq_nil_of_le (le_trans (List.length_take_le _ _) (le_refl _))).symm
      · show ([] : List β) = (s.networkRequests.take s.cursorNetwork).drop s.cursorNetwork
        exact (List.drop_eq_nil_of_le (le_trans (List.length_take_le _ _) (le_refl _))).symm
  | cons op rest ih =>
      intro s hc hn
      cases op with
      | console e =>
          have hc' : (recordConsole s e).cursorConsole ≤
              (recordConsole s e).consoleLogs.length := by
            simp only [recordConsole, List.length_append, List.length_cons]
            omega
          have hn' : (recordConsole s e).cursorNetwork ≤
              (recordConsole s e).networkRequests.length := hn
          obtain ⟨m1, m2, b1, b2, p1, p2, d1, d2⟩ := ih (recordConsole s e) hc' hn'
          exact ⟨m1, m2, b1, b2,
            p1.trans (List.take_append_of_le_length hc), p2, d1, d2⟩
      | network e =>
          have hc' : (recordNetwork s e).cursorConsole ≤
              (recordNetwork s e).consoleLogs.length := hc
          have hn' : (recordNetwork s e).cursorNetwork ≤
              (recordNetwork s e).networkRequests.length := by
            simp only [recordNetwork, List.length_append, List.length_cons]
            omega
          obtain ⟨m1, m2, b1, b2, p1, p2, d1, d2⟩ := ih (recordNetwork s e) hc' hn'
          exact ⟨m1, m2, b1, b2, p1,
            p2.trans (List.take_append_of_le_length hn), d1, d2⟩
      | capture =>
          obtain ⟨m1, m2, b1, b2, p1, p2, d1, d2⟩ :=
            ih (captureObservation s).2 (le_refl _) (le_refl _)
          -- restate the tail-run facts with the capture state unfolded
          have m1' : s.consoleLogs.length ≤
              (runObserver rest (captureObservation s).2).1.cursorConsole := m1
          have m2' : s.networkRequests.length ≤
              (runObserver rest (captureObservation s).2).1.cursorNetwork := m2
          have d1' : ((runObserver rest (captureObservation s).2).2.map
                Prod.fst).flatten =
              ((runObserver rest (captureObservation s).2).1.consoleLogs.take
                (runObserver rest (captureObservation s).2).1.cursorConsole).drop
                s.consoleLogs.length := d1
          have d2' : ((runObserver rest (captureObservation s).2).2.map
                Prod.snd).flatten =
              ((runObserver rest (captureObservation s).2).1.networkRequests.take
                (runObserver rest (captureObservation s).2).1.cursorNetwork).drop
                s.networkRequests.length := d2
          have hfc : (runObserver rest (captureObservation s).2).1.consoleLogs.take
              s.consoleLogs.length = s.consoleLogs := by
            exact p1.trans (List.take_length s.consoleLogs)
          have hfn : (runObserver rest (captureObservation s).2).1.networkRequests.take
              s.networkRequests.length = s.networkRequests := by
            exact p2.trans (List.take_length s.networkRequests)
          refine ⟨le_trans hc m1, le_trans hn m2, b1, b2, ?_, ?_, ?_, ?_⟩
          · show (runObserver rest (captureObservation s).2).1.consoleLogs.take
                s.cursorConsole = s.consoleLogs.take s.cursorConsole
            calc (runObserver rest (captureObservation s).2).1.consoleLogs.take
                  s.cursorConsole
                = ((runObserver rest (captureObservation s).2).1.consoleLogs.take
                    s.consoleLogs.length).take s.cursorConsole := by
                  rw [List.take_take, Nat.min_eq_left hc]
              _ = s.consoleLogs.take s.cursorConsole := by rw [hfc]
          · show (runObserver rest (captureObservation s).2).1.networkRequests.take
                s.cursorNetwork = s.networkRequests.take s.cursorNetwork
            calc (runObserver rest (captureObservation s).2).1.networkRequests.take
                  s.cursorNetwork
                = ((runObserver rest (captureObservation s).2).1.networkRequests.take
                    s.networkRequests.length).take s.cursorNetwork := by
                  rw [List.take_take, Nat.min_eq_left hn]
              _ = s.networkRequests.take s.cursorNetwork := by rw [hfn]
          · show s.consoleLogs.drop s.cursorConsole ++
                ((runObserver rest (captureObservation s).2).2.map Prod.fst).flatten =
                ((runObserver rest (captureObservation s).2).1.consoleLogs.take
                  (runObserver rest (captureObservation s).2).1.cursorConsole).drop
                  s.cursorConsole
            rw [d1']
            have hsplit :
                ((runObserver rest (captureObservation s).2).1.consoleLogs.take
                  (runObserver rest (captureObservation s).2).1.cursorConsole).drop
                  s.cursorConsole =
                s.consoleLogs.drop s.cursorConsole ++
                ((runObserver rest (captureObservation s).2).1.consoleLogs.take
                  (runObserver rest (captureObservation s).2).1.cursorConsole).drop
                  s.consoleLogs.length := by
              have htk : ((runObserver rest (captureObservation s).2).1.consoleLogs.take
                  (runObserver rest (captureObservation s).2).1.cursorConsole).take
                  s.consoleLogs.length = s.consoleLogs := by
                rw [List.take_take, Nat.min_eq_left m1']
                exact hfc
              conv_lhs =>
                rw [← List.take_append_drop s.consoleLogs.length
                  ((runObserver rest (captureObservation s).2).1.consoleLogs.take
                    (runObserver rest (captureObservation s).2).1.cursorConsole)]
              rw [List.drop_append_eq_append_drop, htk]
              have hlen : s.cursorConsole - s.consoleLogs.length = 0 :=
                Nat.sub_eq_zero_of_le hc
              rw [hlen, List.drop_zero]
            rw [hsplit]
          · show s.networkRequests.drop s.cursorNetwork ++
                ((runObserver rest (captureObservation s).2).2.map Prod.snd).flatten =
                ((runObserver rest (captureObservation s).2).1.networkRequests.take
                  (runObserver rest (captureObservation s).2).1.cursorNetwork).drop
                  s.cursorNetwork
            rw [d2']
            have hsplit :
                ((runObserver rest (captureObservation s).2).1.networkRequests.take
                  (runObserver rest (captureObservation s).2).1.cursorNetwork).drop
                  s.cursorNetwork =
                s.networkRequests.drop s.cursorNetwork ++
                ((runObserver rest (captureObservation s).2).1.networkRequests.take
                  (runObserver rest (captureObservation s).2).1.cursorNetwork).drop
                  s.networkRequests.length := by
              have htk : ((runObserver rest (captureObservation s).2).1.networkRequests.take
                  (runObserver rest (captureObservation s).2).1.cursorNetwork).take
                  s.networkRequests.length = s.networkRequests := by
                rw [List.take_take, Nat.min_eq_left m2']
                exact hfn
              conv_lhs =>
                rw [← List.take_append_drop s.networkRequests.length
                  ((runObserver rest (captureObservation s).2).1.networkRequests.take
                    (runObserver rest (captureObservation s).2).1.cursorNetwork)]
              rw [List.drop_append_eq_append_drop, htk]
              have hlen : s.cursorNetwork - s.networkRequests.length = 0 :=
                Nat.sub_eq_zero_of_le hn
              rw [hlen, List.drop_zero]
            rw [hsplit]

/-- Splitting a run of the observer at any point. -/
lemma runObserver_append {α β : Type} (xs ys : List (ObsEvent α β)) :
    ∀ s : ObserverState α β,
      runObserver (xs ++ ys) s =
        ((runObserver ys (runObserver xs s).1).1,
         (runObserver xs s).2 ++ (runObserver ys (runObserver xs s).1).2) := by
  induction xs with
  | nil => intro s; simp [runObserver]
  | cons op rest ih =>
      intro s
      cases op with
      | console e => simpa [runObserver] using ih (recordConsole s e)
      | network e => simpa [runObserver] using ih (recordNetwork s e)
      | capture =>
          show runObserver (ObsEvent.capture :: (rest ++ ys)) s = _
          simp only [runObserver, ih (captureObservation s).2]
          simp

/-- C2: running one observer from session start (fresh state, cursors
at zero), the concatenation of the per-observation console deltas is
exactly the prefix of the accumulated console log below the final read
cursor, likewise for network deltas — so no event ever appears in two
deltas — and whenever the run ends with a capture (the N-th
observation), the concatenated deltas equal the full accumulated event
logs.  The deltas come from the monotone cursor alone (`captureObservation`
slices at the cursor; it never refilters or compares timestamps). -/
theorem observation_delta_partition {α β : Type} (ops : List (ObsEvent α β)) :
    (((runObserver ops ({} : ObserverState α β)).2.map Prod.fst).flatten =
      (runObserver ops ({} : ObserverState α β)).1.consoleLogs.take
        (runObserver ops ({} : ObserverState α β)).1.cursorConsole) ∧
    (((runObserver ops ({} : ObserverState α β)).2.map Prod.snd).flatten =
      (runObserver ops ({} : ObserverState α β)).1.networkRequests.take
        (runObserver ops ({} : ObserverState α β)).1.cursorNetwork) ∧
    (∀ pre, ops = pre ++ [ObsEvent.capture] →
      ((runObserver ops ({} : ObserverState α β)).2.map Prod.fst).flatten =
        (runObserver ops ({} : ObserverState α β)).1.consoleLogs ∧
      ((runObserver ops ({} : ObserverState α β)).2.map Prod.snd).flatten =
        (runObserver ops ({} : ObserverState α β)).1.networkRequests) := by
  obtain ⟨-, -, -, -, -, -, d1, d2⟩ :=
    runObserver_invariant ops ({} : ObserverState α β)
      (Nat.zero_le _) (Nat.zero_le _)
  have hd1 : ((runObserver ops ({} : ObserverState α β)).2.map Prod.fst).flatten =
      (runObserver ops ({} : ObserverState α β)).1.consoleLogs.take
        (runObserver ops ({} : ObserverState α β)).1.cursorConsole := by
    rw [d1]; rfl
  have hd2 : ((runObserver ops ({} : ObserverState α β)).2.map Prod.snd).flatten =
      (runObserver ops ({} : ObserverState α β)).1.networkRequests.take
        (runObserver ops ({} : ObserverState α β)).1.cursorNetwork := by
    rw [d2]; rfl
  refine ⟨hd1, hd2, ?_⟩
  rintro pre rfl
  have hcur : (runObserver (pre ++ [ObsEvent.capture])
        ({} : ObserverState α β)).1.cursorConsole =
      (runObserver (pre ++ [ObsEvent.capture])
        ({} : ObserverState α β)).1.consoleLogs.length ∧
      (runObserver (pre ++ [ObsEvent.capture])
        ({} : ObserverState α β)).1.cursorNetwork =
      (runObserver (pre ++ [ObsEvent.capture])
        ({} : ObserverState α β)).1.networkRequests.length := by
    rw [runObserver_append]
    exact ⟨rfl, rfl⟩
  constructor
  · rw [hd1, hcur.1, List.take_length]
  · rw [hd2, hcur.2, List.take_length]

/-- Witness for `observation_delta_partition`: two captures over a
small concrete event schedule; the second capture repeats no event of
the first and the union of the deltas is the whole log. -/
theorem observation_delta_partition_witness :
    let ops : List (ObsEvent Nat Nat) :=
      [.console 1, .capture, .console 2, .network 10, .capture]
    (((runObserver ops ({} : ObserverState Nat Nat)).2.map Prod.fst).flatten =
      (runObserver ops ({} : ObserverState Nat Nat)).1.consoleLogs.take
        (runObserver ops ({} : ObserverState Nat Nat)).1.cursorConsole) ∧
    ((runObserver ops ({} : ObserverState Nat Nat)).2.map Prod.fst).flatten =
      (runObserver ops ({} : ObserverState Nat Nat)).1.consoleLogs ∧
    ((runObserver ops ({} : ObserverState Nat Nat)).2.map Prod.snd).flatten =
      (runObserver ops ({} : ObserverState Nat Nat)).1.networkRequests := by
  intro ops
  refine ⟨(observation_delta_partition ops).1, ?_⟩
  exact (observation_delta_partition ops).2.2
    [.console 1, .capture, .console 2, .network 10] rfl

/-! ## C3 / C10 — batch execution and checkpoints (`Explorer.explore`,
executor.ts 1124-1205)

In the exploration loop, a decision's batch is executed by a `for` loop
with a `try`/`catch`: a failing action logs the error and, when
`stopOnError` holds, breaks out of the loop; otherwise the loop
continues.  `stopOnError` is `currentAction.stopOnError !== false`, so
an absent flag behaves as `true`.  After a non-empty batch exactly one
observation is captured (`captureObservation`) and exactly one new
decision is requested (`sendObservation`); an empty batch re-sends the
last observation, requesting one decision and capturing nothing.

A batch entry is modelled by its state effect (what the attempt does to
the browser state, applied whether or not the action succeeds) and its
success outcome, chosen by the environment. -/

structure BatchEntry (σ : Type) where
  act : Action
  effect : σ → σ
  ok : Bool

/-- The batch `for` loop of `Explorer.explore` (executor.ts
1134-1154): attempt entries in order; on failure break when `stop`,
else continue.  Returns the state after the attempted entries and the
list of attempted entries. -/
def execBatch {σ : Type} (stop : Bool) :
    List (BatchEntry σ) → σ → σ × List (BatchEntry σ)
  | [], s => ([], s).swap
  | e :: rest, s =>
      if e.ok then
        ((execBatch stop rest (e.effect s)).1,
         e :: (execBatch stop rest (e.effect s)).2)
      else if stop then (e.effect s, [e])
      else
        ((execBatch stop rest (e.effect s)).1,
         e :: (execBatch stop rest (e.effect s)).2)

/-- `stopOnError = currentAction.stopOnError !== false` (executor.ts
1127): only an explicit `false` disables stop-on-error. -/
def effectiveStopOnError (flag : Option Bool) : Bool :=
  match flag with
  | some false => false
  | _ => true

/-- One iteration body of the exploration loop for a decision carrying
`batch` (executor.ts 1126-1201): non-empty batches are executed and
followed by exactly one observation capture and one decision request;
an empty batch requests a decision from the last observation without a
new capture. -/
structure BatchCheckpoint (σ : Type) where
  finalState : σ
  attempted : List (BatchEntry σ)
  observations : List σ
  decisionsRequested : Nat

def exploreBatchStep {σ : Type} (flag : Option Bool)
    (batch : List (BatchEntry σ)) (s : σ) : BatchCheckpoint σ :=
  if batch.isEmpty then
    { finalState := s, attempted := [], observations := [],
      decisionsRequested := 1 }
  else
    { finalState := (execBatch (effectiveStopOnError flag) batch s).1,
      attempted := (execBatch (effectiveStopOnError flag) batch s).2,
      observations := [(execBatch (effectiveStopOnError flag) batch s).1],
      decisionsRequested := 1 }

/-- Number of entries attempted under stop-on-error: everything up to
and including the first failing entry. -/
def stopLen {σ : Type} : List (BatchEntry σ) → Nat
  | [] => 0
  | e :: rest => if e.ok then stopLen rest + 1 else 1

/-- State reached by attempting the given entries in order. -/
def applyEffects {σ : Type} (l : List (BatchEntry σ)) (s : σ) : σ :=
  l.foldl (fun t e => e.effect t) s

lemma execBatch_continue {σ : Type} (batch : List (BatchEntry σ)) :
    ∀ s, (execBatch false batch s).2 = batch ∧
      (execBatch false batch s).1 = applyEffects batch s := by
  induction batch with
  | nil => intro s; exact ⟨rfl, rfl⟩
  | cons e rest ih =>
      intro s
      obtain ⟨h2, h1⟩ := ih (e.effect s)
      by_cases he : e.ok = true
      · constructor
        · show (execBatch false (e :: rest) s).2 = e :: rest
          unfold execBatch
          rw [if_pos he, h2]
        · show (execBatch false (e :: rest) s).1 = applyEffects (e :: rest) s
          unfold execBatch
          rw [if_pos he, h1]
          rfl
      · constructor
        · show (execBatch false (e :: rest) s).2 = e :: rest
          unfold execBatch
          rw [if_neg he, if_neg (by decide), h2]
        · show (execBatch false (e :: rest) s).1 = applyEffects (e :: rest) s
          unfold execBatch
          rw [if_neg he, if_neg (by decide), h1]
          rfl

lemma execBatch_stop {σ : Type} (batch : List (BatchEntry σ)) :
    ∀ s, (execBatch true batch s).2 = batch.take (stopLen batch) ∧
      (execBatch true batch s).1 =
        applyEffects (batch.take (stopLen batch)) s := by
  induction batch with
  | nil => intro s; exact ⟨rfl, rfl⟩
  | cons e rest ih =>
      intro s
      obtain ⟨h2, h1⟩ := ih (e.effect s)
      by_cases he : e.ok = true
      · have hl : stopLen (e :: rest) = stopLen rest + 1 := by
          simp [stopLen, he]
        constructor
        · show (execBatch true (e :: rest) s).2 = _
          unfold execBatch
          rw [if_pos he, h2, hl, List.take_succ_cons]
        · show (execBatch true (e :: rest) s).1 = _
          unfold execBatch
          rw [if_pos he, h1, hl, List.take_succ_cons]
          rfl
      · have hl : stopLen (e :: rest) = 1 := by
          simp [stopLen, he]
        constructor
        · show (execBatch true (e :: rest) s).2 = _
          unfold execBatch
          rw [if_neg he, if_pos rfl, hl, List.take_succ_cons, List.take_zero]
        · show (execBatch true (e :: rest) s).1 = _
          unfold execBatch
          rw [if_neg he, if_pos rfl, hl, List.take_succ_cons, List.take_zero]
          rfl

/-- C3: for every non-empty batch executed in the exploration loop —
whatever the `stopOnError` flag and whether or not entries fail —
exactly one observation is captured after the batch, it is a snapshot
of the state reached by the attempted entries, and exactly one new
decision is requested; under stop-on-error the attempted entries are
exactly the batch prefix up to and including the first failing entry,
so no action after the first failure is executed. -/
theorem batch_checkpoint_one_observation_one_decision {σ : Type}
    (flag : Option Bool) (batch : List (BatchEntry σ)) (s : σ)
    (h : batch ≠ []) :
    (exploreBatchStep flag batch s).observations.length = 1 ∧
    (exploreBatchStep flag batch s).decisionsRequested = 1 ∧
    (exploreBatchStep flag batch s).observations =
      [(exploreBatchStep flag batch s).finalState] ∧
    (exploreBatchStep flag batch s).finalState =
      applyEffects (exploreBatchStep flag batch s).attempted s ∧
    (effectiveStopOnError flag = true →
      (exploreBatchStep flag batch s).attempted =
        batch.take (stopLen batch)) := by
  have hne : batch.isEmpty = false := by
    cases batch with
    | nil => exact absurd rfl h
    | cons e rest => rfl
  have hstep : exploreBatchStep flag batch s =
      { finalState := (execBatch (effectiveStopOnError flag) batch s).1,
        attempted := (execBatch (effectiveStopOnError flag) batch s).2,
        observations := [(execBatch (effectiveStopOnError flag) batch s).1],
        decisionsRequested := 1 } := by
    unfold exploreBatchStep
    rw [hne]
    simp
  rw [hstep]
  refine ⟨rfl, rfl, rfl, ?_, ?_⟩
  · cases hf : effectiveStopOnError flag
    · obtain ⟨h2, h1⟩ := execBatch_continue batch s
      rw [hf] at *
      rw [h1, h2]
    · obtain ⟨h2, h1⟩ := execBatch_stop batch s
      rw [hf] at *
      rw [h1, h2]
  · intro hf
    rw [hf]
    exact (execBatch_stop batch s).1

/-- Witness for `batch_checkpoint_one_observation_one_decision`: batch
[A, B, C] over state `Nat` where B fails; one observation, one decision,
and the snapshot reflects A and the attempt of B but not C. -/
theorem batch_checkpoint_one_observation_one_decision_witness :
    let a : BatchEntry Nat := ⟨{ action := "click" }, (· + 1), true⟩
    let b : BatchEntry Nat := ⟨{ action := "type" }, (· + 10), false⟩
    let c : BatchEntry Nat := ⟨{ action := "click" }, (· + 100), true⟩
    (exploreBatchStep (some true) [a, b, c] 0).observations.length = 1 ∧
    (exploreBatchStep (some true) [a, b, c] 0).decisionsRequested = 1 ∧
    (exploreBatchStep (some true) [a, b, c] 0).observations =
      [(exploreBatchStep (some true) [a, b, c] 0).finalState] ∧
    (exploreBatchStep (some true) [a, b, c] 0).finalState =
      applyEffects (exploreBatchStep (some true) [a, b, c] 0).attempted 0 ∧
    (effectiveStopOnError (some true) = true →
      (exploreBatchStep (some true) [a, b, c] 0).attempted =
        [a, b, c].take (stopLen [a, b, c])) := by
  intro a b c
  exact batch_checkpoint_one_observation_one_decision (some true) [a, b, c] 0
    (List.cons_ne_nil a [b, c])

/-- C10: an absent `stopOnError` flag makes batch execution behave
exactly as an explicit `true` (the first failure halts the remaining
batch), and only an explicit `false` continues through failures,
attempting every entry. -/
theorem stopOnError_default_is_true {σ : Type}
    (batch : List (BatchEntry σ)) (s : σ) :
    effectiveStopOnError none = true ∧
    exploreBatchStep none batch s = exploreBatchStep (some true) batch s ∧
    (exploreBatchStep (some false) batch s).attempted = batch := by
  refine ⟨rfl, rfl, ?_⟩
  by_cases hb : batch.isEmpty = true
  · unfold exploreBatchStep
    rw [if_pos hb]
    cases batch with
    | nil => rfl
    | cons e rest => cases hb
  · have hb' : batch.isEmpty = false := by
      cases h : batch.isEmpty
      · rfl
      · exact absurd h hb
    unfold exploreBatchStep
    rw [hb', if_neg (by decide : ¬ (false = true))]
    exact (execBatch_continue batch s).1

/-! ## C4 — unknown action variants (`ActionExecutor.executeOnce`,
executor.ts 136-201; `ScenarioParser.validate`)

`executeOnce` dispatches on `action.action` through a `switch` that has
a case per known kind and **no default case**: an unrecognized tag
falls through the switch, performs nothing and returns normally.
`ScenarioParser.validate` only pushes an error when `step.action` is
falsy (missing) or when a recognized kind misses a required field; it
never checks membership of the tag in the known set.  Handlers for
known kinds are abstracted by a function from the kind to the handler
outcome paired with its number of driver interactions. -/

/-- The case labels of the `executeOnce` switch (executor.ts 138-196). -/
def executeOnceCases : List String :=
  ["navigate", "click", "type", "select", "select_option", "fill_date",
   "upload", "wait", "scroll", "hover", "assert", "check_form",
   "press_key", "fill_field", "auto_fill_form", "toggle", "clear",
   "focus", "blur"]

/-- `executeOnce`: dispatch to the known handler, or fall through the
switch — success with zero driver interactions — on an unknown tag. -/
def executeOnceModel (handlers : String → Except String Unit × Nat)
    (a : Action) : Except String Unit × Nat :=
  if a.action ∈ executeOnceCases then handlers a.action
  else (Except.ok (), 0)

/-- JavaScript falsiness of an optional string field (`undefined` or
the empty string). -/
def strFalsy : Option String → Bool
  | none => true
  | some s => s = ""

/-- JavaScript falsiness of an optional number field (`undefined` or
zero). -/
def natFalsy : Option Nat → Bool
  | none => true
  | some k => k = 0

/-- Per-step checks of `ScenarioParser.validate`: the `switch` is a
first-match chain over the kinds it knows about; a step with a missing
(falsy) tag gets the `missing action` error, everything else falls
through with no error. -/
def validateStep (n : Nat) (step : Action) : List String :=
  if step.action = "" then
    ["Step " ++ toString n ++ ": missing action"]
  else if step.action = "navigate" then
    if strFalsy step.url then ["Step " ++ toString n ++ ": navigate needs url"]
    else []
  else if step.action = "click" ∨ step.action = "type" ∨ step.action = "hover" then
    if strFalsy step.selector then
      ["Step " ++ toString n ++ ": " ++ step.action ++ " needs selector"]
    else []
  else if step.action = "select" then
    if strFalsy step.selector ∨ strFalsy step.value then
      ["Step " ++ toString n ++ ": select needs selector and value"]
    else []
  else if step.action = "select_option" then
    (if strFalsy step.selector ∧ strFalsy step.dropdown then
      ["Step " ++ toString n ++ ": select_option needs selector/dropdown"]
    else []) ++
    (if strFalsy step.option ∧ step.option_index = none then
      ["Step " ++ toString n ++ ": select_option needs option/option_index"]
    else [])
  else if step.action = "fill_date" then
    (if strFalsy step.selector then
      ["Step " ++ toString n ++ ": fill_date needs selector"]
    else []) ++
    (if strFalsy step.date ∧ strFalsy step.value then
      ["Step " ++ toString n ++ ": fill_date needs date/value"]
    else [])
  else if step.action = "wait" then
    if natFalsy step.duration ∧ strFalsy step.selector then
      ["Step " ++ toString n ++ ": wait needs duration or selector"]
    else []
  else if step.action = "assert" then
    if strFalsy step.assert_type then
      ["Step " ++ toString n ++ ": assert needs assert_type"]
    else []
  else if step.action = "press_key" then
    if strFalsy step.key ∧ strFalsy step.value then
      ["Step " ++ toString n ++ ": press_key needs key/value"]
    else []
  else []

/-- `ScenarioParser.validate` over a whole scenario: collect the
per-step errors (steps are numbered from 1); the scenario is valid when
no error was produced. -/
def validateScenario (steps : List Action) : List String :=
  (steps.enum.map (fun p => validateStep (p.1 + 1) p.2)).flatten

/-- Counterexample to C4: the concrete action tag `"explode"` is not a
known variant, yet it passes validation with no errors and
`executeOnce` executes it as a successful no-op with zero driver
interactions — the system neither rejects it at the validation boundary
nor at execution. -/
theorem unknown_action_rejected_counterexample :
    validateStep 1 { action := "explode" } = [] ∧
    validateScenario [{ action := "explode" }] = [] ∧
    executeOnceModel (fun _ => (Except.ok (), 1)) { action := "explode" } =
      (Except.ok (), 0) := by
  refine ⟨rfl, rfl, ?_⟩
  unfold executeOnceModel
  rw [if_neg (by decide : ¬ ("explode" ∈ executeOnceCases))]

/-- C4 (amended): only a missing (empty) action tag is rejected by
validation; an action whose tag is any unknown non-empty string passes
validation with no errors, and `executeOnce` executes it as a
successful no-op without invoking the browser driver — unknown
variants are silently ignored rather than rejected. -/
theorem unknown_action_is_silent_noop
    (handlers : String → Except String Unit × Nat) (a : Action) (n : Nat)
    (hk : a.action ∉ executeOnceCases) (hne : a.action ≠ "") :
    executeOnceModel handlers a = (Except.ok (), 0) ∧
    validateStep n a = [] ∧
    validateStep n { a with action := "" } ≠ [] := by
  have hmem : ∀ k : String, k ∈ executeOnceCases → a.action ≠ k := by
    intro k hkmem he
    exact hk (he ▸ hkmem)
  refine ⟨?_, ?_, ?_⟩
  · unfold executeOnceModel
    rw [if_neg hk]
  · unfold validateStep
    rw [if_neg hne,
      if_neg (hmem "navigate" (by decide)),
      if_neg (by
        rintro (h | h | h)
        exacts [hmem "click" (by decide) h, hmem "type" (by decide) h,
          hmem "hover" (by decide) h]),
      if_neg (hmem "select" (by decide)),
      if_neg (hmem "select_option" (by decide)),
      if_neg (hmem "fill_date" (by decide)),
      if_neg (hmem "wait" (by decide)),
      if_neg (hmem "assert" (by decide)),
      if_neg (hmem "press_key" (by decide))]
  · unfold validateStep
    rw [if_pos rfl]
    intro h
    cases h

/-- Witness for `unknown_action_is_silent_noop` at the tag
`"explode"` with handlers that would report a driver interaction if
they were ever reached. -/
theorem unknown_action_is_silent_noop_witness :
    executeOnceModel (fun _ => (Except.ok (), 1)) { action := "explode" } =
      (Except.ok (), 0) ∧
    validateStep 2 { action := "explode" } = [] ∧
    validateStep 2 { ({ action := "explode" } : Action) with action := "" } ≠ [] := by
  exact unknown_action_is_silent_noop (fun _ => (Except.ok (), 1))
    { action := "explode" } 2 (by decide) (by decide)

/-! ## C5 — comma-separated selector targets (`ActionExecutor.click`,
executor.ts 907-927)

`click` does `page.locator(action.selector).first()`, waits for that
element to be visible, rejects it when disabled (unless `force`), and
clicks it.  A comma-separated selector therefore reaches the driver as
a **single union selector**: Playwright resolves it to the matching
elements of *any* alternative and `.first()` picks the first in DOM
order.  There is no per-alternative loop or per-alternative timeout in
the executor.  A static page is a DOM-ordered list of elements, each
knowing which selector strings match it. -/

structure PageElement where
  eid : Nat
  sels : List String
  visible : Bool
  disabled : Bool
  deriving Repr, DecidableEq

def elMatches (e : PageElement) (sel : String) : Bool := e.sels.contains sel

/-- Comma splitting of a selector list, performed by the driver, not
by the executor: split on commas and trim surrounding spaces. -/
def splitAux (sep : Char) : List Char → List Char → List (List Char)
  | [], acc => [acc.reverse]
  | c :: rest, acc =>
      if c = sep then acc.reverse :: splitAux sep rest []
      else splitAux sep rest (c :: acc)

def trimSpaces (s : List Char) : List Char :=
  ((s.dropWhile (fun c => c = ' ')).reverse.dropWhile (fun c => c = ' ')).reverse

def splitChain (target : String) : List String :=
  (splitAux ',' target.data []).map (fun cs => String.mk (trimSpaces cs))

/-- `locator(sel).first()` for a union selector: the first element in
DOM order matching any alternative. -/
def locatorFirst (page : List PageElement) (alts : List String) :
    Option PageElement :=
  page.find? (fun e => alts.any (fun s => elMatches e s))

inductive ClickError
  | missingSelector
  | timeoutWaitingVisible
  | elementDisabled
  deriving Repr, DecidableEq

/-- Body of `click` after `locator(...).first()`: wait for visibility
of that element (timeout when it never becomes visible or nothing
matches), reject disabled elements unless forced, then click. -/
def clickUnion (page : List PageElement) (force : Option Bool)
    (alts : List String) : Except ClickError PageElement :=
  match locatorFirst page alts with
  | none => Except.error ClickError.timeoutWaitingVisible
  | some e =>
      if e.visible = false then Except.error ClickError.timeoutWaitingVisible
      else if e.disabled = true ∧ force.getD false = false then
        Except.error ClickError.elementDisabled
      else Except.ok e

/-- `ActionExecutor.click` (executor.ts 907-927): requires a selector,
then acts on the first DOM-order match of the union selector.  The
returned element is the one the click mutates. -/
def clickModel (page : List PageElement) (a : Action) :
    Except ClickError PageElement :=
  match a.selector with
  | none => Except.error ClickError.missingSelector
  | some target => clickUnion page a.force (splitChain target)

/-- Modelled from the spec: target resolution that "tries each
alternative in order and uses the first that resolves to a visible,
enabled element within a short per-alternative timeout" (spec section
4.1).  Stated only for comparison with `clickModel`; the executor does
not contain such a loop. -/
def resolveChainSpec (page : List PageElement) :
    List String → Option PageElement
  | [] => none
  | s :: rest =>
      match page.find? (fun e =>
        elMatches e s && e.visible && !e.disabled) with
      | some e => some e
      | none => resolveChainSpec page rest

/-- Counterexample to C5: with target `"sel1, sel2"`, where both
alternatives resolve to visible, enabled elements but the element
matching `sel2` comes first in DOM order, the code clicks the `sel2`
element, while resolution in chain order (the spec reading) would have
picked the `sel1` element — the alternatives are not tried in order. -/
theorem fallback_chain_order_counterexample :
    clickModel
        [⟨2, ["sel2"], true, false⟩, ⟨1, ["sel1"], true, false⟩]
        { action := "click", selector := some "sel1, sel2" } =
      Except.ok ⟨2, ["sel2"], true, false⟩ ∧
    resolveChainSpec
        [⟨2, ["sel2"], true, false⟩, ⟨1, ["sel1"], true, false⟩]
        (splitChain "sel1, sel2") =
      some ⟨1, ["sel1"], true, false⟩ ∧
    elMatches ⟨1, ["sel1"], true, false⟩ "sel1" = true ∧
    (⟨1, ["sel1"], true, false⟩ : PageElement).visible = true ∧
    (⟨1, ["sel1"], true, false⟩ : PageElement).disabled = false ∧
    elMatches ⟨2, ["sel2"], true, false⟩ "sel1" = false := by
  exact ⟨rfl, rfl, rfl, rfl, rfl, rfl⟩

/-- C5 (amended): the comma-separated target reaches the driver as one
union selector and the click acts on the first DOM-order element
matching any alternative (which must be visible and not disabled); in
particular, when no element matches the first alternative and the first
union match is visible and enabled, the click succeeds on that element
— it matches the second alternative and not the first, so nothing
matching the first alternative is mutated. -/
theorem fallback_succeeds_via_second_alternative
    (page : List PageElement) (e : PageElement) (target t1 t2 : String)
    (hsplit : splitChain target = [t1, t2])
    (h1 : ∀ x ∈ page, elMatches x t1 = false)
    (hfind : locatorFirst page [t1, t2] = some e)
    (hvis : e.visible = true) (hdis : e.disabled = false) :
    clickModel page { action := "click", selector := some target } =
      Except.ok e ∧
    elMatches e t2 = true ∧ elMatches e t1 = false := by
  have hfind' : page.find? (fun x => [t1, t2].any (fun s => elMatches x s)) =
      some e := hfind
  have hmem : e ∈ page := List.mem_of_find?_eq_some hfind'
  have hpred := List.find?_some hfind'
  simp only [List.any_cons, List.any_nil, Bool.or_false] at hpred
  have ht1 : elMatches e t1 = false := h1 e hmem
  have ht2 : elMatches e t2 = true := by
    rw [ht1] at hpred
    simpa using hpred
  refine ⟨?_, ht2, ht1⟩
  show clickUnion page none (splitChain target) = Except.ok e
  rw [hsplit]
  unfold clickUnion
  rw [hfind]
  simp [hvis, hdis]

/-- Witness for `fallback_succeeds_via_second_alternative`: a page with
a single visible, enabled element matching only `sel2`; the click on
`"sel1, sel2"` succeeds on it. -/
theorem fallback_succeeds_via_second_alternative_witness :
    clickModel [⟨7, ["sel2"], true, false⟩]
        { action := "click", selector := some "sel1, sel2" } =
      Except.ok ⟨7, ["sel2"], true, false⟩ ∧
    elMatches ⟨7, ["sel2"], true, false⟩ "sel2" = true ∧
    elMatches ⟨7, ["sel2"], true, false⟩ "sel1" = false := by
  exact fallback_succeeds_via_second_alternative
    [⟨7, ["sel2"], true, false⟩] ⟨7, ["sel2"], true, false⟩
    "sel1, sel2" "sel1" "sel2" (by decide)
    (by decide) (by decide) rfl rfl

/-! ## C6 / C7 — the file-based exchange protocol (`AICommunicator`,
`sendObservation` / `waitForAction`)

`sendObservation` writes the observation file, sets the status file to
`WAITING_FOR_AI` and calls `waitForAction`, which polls for
`action.json` every `pollInterval = 1000` ms until `timeout = 300000`
ms (the default) has elapsed.  When the file appears its content is
parsed, the file is **deleted**, the status is set back to `RUNNING`
and the decision is returned; when the timeout elapses an error naming
the expected file is thrown, leaving the status file untouched (still
`WAITING_FOR_AI`).

The mailbox is the pair (action-file content, status-file content);
the external decision-maker is a schedule `writes : Nat → Option AIAction`
giving the content it places in the action file just before each global
poll instant.  Polls are one `pollInterval` apart, so poll indices
count elapsed intervals. -/

/-- Decision payload of the exchange (fields used by the orchestrator's
control flow). -/
structure AIAction where
  decision : String
  reasoning : String := ""
  stopOnError : Option Bool := none
  batchOks : List Bool := []
  deriving Repr, DecidableEq

def DECISION_TIMEOUT_MS : Nat := 300000

def POLL_INTERVAL_MS : Nat := 1000

/-- Number of polls before `Date.now() - startTime < timeout` fails,
with one `pollInterval` sleep separating consecutive polls. -/
def MAX_POLLS : Nat := DECISION_TIMEOUT_MS / POLL_INTERVAL_MS

def ACTION_FILE : String := "action.json"

structure MailboxState where
  actionFile : Option AIAction := none
  statusFile : String := "RUNNING"
  deriving Repr, DecidableEq

inductive ExchangeError
  | timeout (expectedFile : String)
  deriving Repr, DecidableEq

/-- State of the action file as seen at poll instant `t`, after the
external writer had the chance to create it. -/
def pollOnce (writes : Nat → Option AIAction) (t : Nat)
    (mb : MailboxState) : MailboxState :=
  match writes t with
  | some a => { mb with actionFile := some a }
  | none => mb

/-- The polling loop of `waitForAction`: check for the file, return its
parsed content after deleting it and setting status `RUNNING`, else
sleep one interval and poll again until the fuel (elapsed-time budget)
runs out. -/
def waitLoop (writes : Nat → Option AIAction) :
    Nat → Nat → MailboxState → Option AIAction × Nat × MailboxState
  | 0, t, mb => (none, t, mb)
  | fuel + 1, t, mb =>
      match (pollOnce writes t mb).actionFile with
      | some a =>
          (some a, t + 1,
           { actionFile := none, statusFile := "RUNNING" })
      | none => waitLoop writes fuel (t + 1) (pollOnce writes t mb)

/-- `AICommunicator.waitForAction` with the default timeout: either a
decision (with the one-shot file consumed) or the timeout error naming
the expected hand-off file. -/
def waitForAction (writes : Nat → Option AIAction) (t : Nat)
    (mb : MailboxState) :
    Except ExchangeError AIAction × Nat × MailboxState :=
  match waitLoop writes MAX_POLLS t mb with
  | (some a, t2, mb2) => (Except.ok a, t2, mb2)
  | (none, t2, mb2) =>
      (Except.error (ExchangeError.timeout ACTION_FILE), t2, mb2)

/-- `AICommunicator.sendObservation`: set the status to
`WAITING_FOR_AI`, then block in `waitForAction`. -/
def sendObservation (writes : Nat → Option AIAction) (t : Nat)
    (mb : MailboxState) :
    Except ExchangeError AIAction × Nat × MailboxState :=
  waitForAction writes t { mb with statusFile := "WAITING_FOR_AI" }

lemma waitLoop_no_writes (writes : Nat → Option AIAction) :
    ∀ (fuel t : Nat) (mb : MailboxState), mb.actionFile = none →
      (∀ i, t ≤ i → i < t + fuel → writes i = none) →
      waitLoop writes fuel t mb = (none, t + fuel, mb) := by
  intro fuel
  induction fuel with
  | zero => intro t mb hmb hw; rfl
  | succ f ih =>
      intro t mb hmb hw
      have hwt : writes t = none := hw t (le_refl t) (by omega)
      have hpoll : pollOnce writes t mb = mb := by
        unfold pollOnce
        rw [hwt]
      unfold waitLoop
      rw [hpoll, hmb]
      have harith : t + (f + 1) = t + 1 + f := by omega
      rw [harith]
      exact ih (t + 1) mb hmb
        (fun i hi1 hi2 => hw i (by omega) (by omega))

lemma waitLoop_first_write (writes : Nat → Option AIAction)
    (j : Nat) (a : AIAction) (hw : writes j = some a) :
    ∀ (fuel t : Nat) (mb : MailboxState), mb.actionFile = none →
      t ≤ j → j < t + fuel →
      (∀ i, t ≤ i → i < j → writes i = none) →
      waitLoop writes fuel t mb =
        (some a, j + 1, { actionFile := none, statusFile := "RUNNING" }) := by
  intro fuel
  induction fuel with
  | zero => intro t mb hmb h1 h2 hmin; omega
  | succ f ih =>
      intro t mb hmb h1 h2 hmin
      by_cases hj : t = j
      · subst hj
        have hpoll : (pollOnce writes t mb).actionFile = some a := by
          unfold pollOnce
          rw [hw]
        unfold waitLoop
        rw [hpoll]
      · have hlt : t < j := lt_of_le_of_ne h1 hj
        have hwt : writes t = none := hmin t (le_refl t) hlt
        have hpoll : pollOnce writes t mb = mb := by
          unfold pollOnce
          rw [hwt]
        unfold waitLoop
        rw [hpoll, hmb]
        exact ih (t + 1) mb hmb (by omega) (by omega)
          (fun i hi1 hi2 => hmin i (by omega) hi2)

/-- C6: when no decision file is written during the whole wait window
(300 polls, i.e. the default five-minute timeout at the fixed
one-second poll interval), `sendObservation` raises the timeout error
that names the expected hand-off file (`action.json`) instead of
hanging, and the status file is left holding `WAITING_FOR_AI`; the
constants are the source defaults. -/
theorem exchange_timeout_names_handoff_file
    (writes : Nat → Option AIAction) (t : Nat) (mb : MailboxState)
    (hmb : mb.actionFile = none)
    (hw : ∀ i, t ≤ i → i < t + MAX_POLLS → writes i = none) :
    sendObservation writes t mb =
      (Except.error (ExchangeError.timeout ACTION_FILE), t + MAX_POLLS,
       { actionFile := none, statusFile := "WAITING_FOR_AI" }) ∧
    DECISION_TIMEOUT_MS = 300000 ∧ POLL_INTERVAL_MS = 1000 ∧
    MAX_POLLS = 300 := by
  refine ⟨?_, rfl, rfl, rfl⟩
  unfold sendObservation waitForAction
  rw [waitLoop_no_writes writes MAX_POLLS t
    { mb with statusFile := "WAITING_FOR_AI" } hmb hw]
  have hmbeq : ({ mb with statusFile := "WAITING_FOR_AI" } : MailboxState) =
      { actionFile := none, statusFile := "WAITING_FOR_AI" } := by
    rw [← hmb]
  rw [hmbeq]

/-- Witness for `exchange_timeout_names_handoff_file`: a writer that
never writes; the wait from a fresh mailbox at time 0 times out with
the error naming `action.json` and status `WAITING_FOR_AI`. -/
theorem exchange_timeout_names_handoff_file_witness :
    sendObservation (fun _ => none) 0 {} =
      (Except.error (ExchangeError.timeout ACTION_FILE), 0 + MAX_POLLS,
       { actionFile := none, statusFile := "WAITING_FOR_AI" }) ∧
    DECISION_TIMEOUT_MS = 300000 ∧ POLL_INTERVAL_MS = 1000 ∧
    MAX_POLLS = 300 := by
  exact exchange_timeout_names_handoff_file (fun _ => none) 0 {} rfl
    (fun i _ _ => rfl)

/-- C7: a well-formed decision file written while the orchestrator is
blocked unblocks the wait at that poll, yields exactly that decision,
and the file is deleted on read (status back to `RUNNING`); the mailbox
is one-shot — a subsequent wait with no fresh write does not see the
consumed content again and times out. -/
theorem exchange_mailbox_one_shot
    (writes : Nat → Option AIAction) (t j : Nat) (mb : MailboxState)
    (a : AIAction) (hmb : mb.actionFile = none)
    (h1 : t ≤ j) (h2 : j < t + MAX_POLLS) (hw : writes j = some a)
    (hmin : ∀ i, t ≤ i → i < j → writes i = none) :
    waitForAction writes t mb =
      (Except.ok a, j + 1,
       { actionFile := none, statusFile := "RUNNING" }) ∧
    ((∀ i, j + 1 ≤ i → i < j + 1 + MAX_POLLS → writes i = none) →
      (waitForAction writes (j + 1)
          { actionFile := none, statusFile := "RUNNING" }).1 =
        Except.error (ExchangeError.timeout ACTION_FILE)) := by
  constructor
  · unfold waitForAction
    rw [waitLoop_first_write writes j a hw MAX_POLLS t mb hmb h1 h2 hmin]
  · intro hlater
    unfold waitForAction
    rw [waitLoop_no_writes writes MAX_POLLS (j + 1)
      { actionFile := none, statusFile := "RUNNING" } rfl hlater]

/-- Witness for `exchange_mailbox_one_shot`: the decision-maker writes
a `continue` decision at poll 2; the wait returns it, the file is
gone, and a second wait with no further writes times out. -/
theorem exchange_mailbox_one_shot_witness :
    waitForAction
        (fun i => if i = 2 then some { decision := "continue" } else none)
        0 {} =
      (Except.ok { decision := "continue" }, 3,
       { actionFile := none, statusFile := "RUNNING" }) ∧
    (waitForAction
        (fun i => if i = 2 then some { decision := "continue" } else none)
        3 { actionFile := none, statusFile := "RUNNING" }).1 =
      Except.error (ExchangeError.timeout ACTION_FILE) := by
  have h := exchange_mailbox_one_shot
    (fun i => if i = 2 then some { decision := "continue" } else none)
    0 2 {} { decision := "continue" } rfl (Nat.zero_le 2) (by decide) rfl
    (by
      intro i _ hi
      show (if i = 2 then some ({ decision := "continue" } : AIAction)
        else none) = none
      rw [if_neg (by omega)])
  exact ⟨h.1, h.2 (by
    intro i hi _
    show (if i = 2 then some ({ decision := "continue" } : AIAction)
      else none) = none
    rw [if_neg (by omega)])⟩

/-! ## C8 — wait-after-action semantics (`execute` / `handleWaitFor` /
`handleSingleWait`, executor.ts 46-95)

`execute` runs `executeOnce` and, only when it succeeded, awaits
`handleWaitFor(action.wait_for)`; `handleWaitFor` runs all conditions
via `Promise.all`, which rejects as soon as any condition rejects.
Each condition maps to a driver wait (`waitForSelector`,
`waitForLoadState`, `waitForURL`, …) that **throws** on timeout —
except `no_loading`, whose polling loop (`waitForNoLoading`) simply
returns when its deadline passes, and conditions missing their
`selector`/`value`, which are skipped.  A rejected wait makes the whole
attempt fail, and after the retry loop the action fails with
`Action failed after N attempts`.

The environment `WaitEnv` records, for each kind of driver wait,
whether it resolves within a given timeout. -/

structure WaitForOptions where
  condition : String
  selector : Option String := none
  value : Option String := none
  timeout : Option Nat := none

def DEFAULT_TIMEOUT : Nat := 10000

structure WaitEnv where
  networkIdleWithin : Nat → Bool
  selectorVisibleWithin : String → Nat → Bool
  selectorHiddenWithin : String → Nat → Bool
  urlContainsWithin : String → Nat → Bool
  textVisibleWithin : String → Nat → Bool
  formReadyWithin : String → Nat → Bool

/-- `handleSingleWait` (executor.ts 70-95): dispatch on the condition
kind; driver waits reject on timeout, `no_loading` always resolves
(its loop exits silently at its deadline), guards with a missing
selector/value skip the wait, and an unknown kind falls through the
switch. -/
def handleSingleWait (env : WaitEnv) (c : WaitForOptions) :
    Except String Unit :=
  if c.condition = "network_idle" then
    if env.networkIdleWithin (c.timeout.getD DEFAULT_TIMEOUT) then Except.ok ()
    else Except.error "Timeout waiting for load state networkidle"
  else if c.condition = "element_visible" then
    match c.selector with
    | some s =>
        if env.selectorVisibleWithin s (c.timeout.getD DEFAULT_TIMEOUT) then
          Except.ok ()
        else Except.error ("Timeout waiting for selector " ++ s)
    | none => Except.ok ()
  else if c.condition = "element_hidden" then
    match c.selector with
    | some s =>
        if env.selectorHiddenWithin s (c.timeout.getD DEFAULT_TIMEOUT) then
          Except.ok ()
        else Except.error ("Timeout waiting for selector hidden " ++ s)
    | none => Except.ok ()
  else if c.condition = "url_contains" then
    match c.value with
    | some v =>
        if env.urlContainsWithin v (c.timeout.getD DEFAULT_TIMEOUT) then
          Except.ok ()
        else Except.error ("Timeout waiting for URL containing " ++ v)
    | none => Except.ok ()
  else if c.condition = "text_visible" then
    match c.value with
    | some v =>
        if env.textVisibleWithin v (c.timeout.getD DEFAULT_TIMEOUT) then
          Except.ok ()
        else Except.error ("Timeout waiting for text " ++ v)
    | none => Except.ok ()
  else if c.condition = "no_loading" then
    Except.ok ()
  else if c.condition = "form_ready" then
    if env.formReadyWithin (c.selector.getD "form")
        (c.timeout.getD DEFAULT_TIMEOUT) then Except.ok ()
    else Except.error "Timeout waiting for form ready"
  else Except.ok ()

/-- `handleWaitFor` (executor.ts 64-68): `Promise.all` over the
conditions — resolves when all resolve, rejects when any rejects. -/
def handleWaitFor (env : WaitEnv) : List WaitForOptions → Except String Unit
  | [] => Except.ok ()
  | c :: rest =>
      match handleSingleWait env c with
      | Except.ok () => handleWaitFor env rest
      | Except.error e => Except.error e

/-- The wait-relevant slice of `ActionExecutor.execute` (executor.ts
46-61): one attempt runs `executeOnce`; only on its success are the
`wait_for` conditions evaluated, and the attempt result is the wait
result.  The environment does not change between attempts, so the
retry loop either succeeds at once or fails every attempt, producing
the `Action failed after N attempts` wrapper.  The boolean reports
whether the wait conditions were evaluated. -/
def executeWithWait (env : WaitEnv) (execOnceResult : Except String Unit)
    (waitFor : List WaitForOptions) (maxAttempts : Nat) :
    Except String Unit × Bool :=
  match execOnceResult with
  | Except.error e =>
      (Except.error ("Action failed after " ++ toString (max maxAttempts 1) ++
        " attempts: " ++ e), false)
  | Except.ok () =>
      match handleWaitFor env waitFor with
      | Except.ok () => (Except.ok (), true)
      | Except.error e =>
          (Except.error ("Action failed after " ++ toString (max maxAttempts 1) ++
            " attempts: " ++ e), true)

/-- An environment in which nothing ever resolves within any timeout:
every wait-condition deadline expires. -/
def neverEnv : WaitEnv :=
  { networkIdleWithin := fun _ => false,
    selectorVisibleWithin := fun _ _ => false,
    selectorHiddenWithin := fun _ _ => false,
    urlContainsWithin := fun _ _ => false,
    textVisibleWithin := fun _ _ => false,
    formReadyWithin := fun _ _ => false }

/-- Counterexample to C8: an action whose driver operation succeeded
but whose single `wait_for` condition (`element_visible` on `#x`)
times out **fails as a whole** — the condition's timeout is fatal even
though nothing marked it as required, contradicting the claim that the
action still counts as finished/successful. -/
theorem wait_timeout_not_fatal_counterexample :
    (executeWithWait neverEnv (Except.ok ())
        [{ condition := "element_visible", selector := some "#x" }] 1).1 =
      Except.error
        "Action failed after 1 attempts: Timeout waiting for selector #x" := by
  rfl

/-- C8 (amended): `wait_for` conditions are evaluated only after the
action's driver operation completed successfully (a failed
`executeOnce` never evaluates them); a condition whose timeout expires
makes the whole action fail with the attempts wrapper — for every
condition kind except `no_loading`, which expires silently, and
conditions missing their selector/value, which are skipped; no flag
makes a timeout non-fatal. -/
theorem wait_conditions_after_action_and_fatal_on_timeout
    (env : WaitEnv) (waitFor : List WaitForOptions) (msg sel : String)
    (n : Nat) (t : Option Nat)
    (hv : env.selectorVisibleWithin sel (t.getD DEFAULT_TIMEOUT) = false) :
    (executeWithWait env (Except.error msg) waitFor n).2 = false ∧
    handleSingleWait env
      { condition := "no_loading", selector := some sel, timeout := t } =
      Except.ok () ∧
    (executeWithWait env (Except.ok ())
        [{ condition := "element_visible", selector := some sel,
           timeout := t }] n).1 =
      Except.error ("Action failed after " ++ toString (max n 1) ++
        " attempts: " ++ ("Timeout waiting for selector " ++ sel)) ∧
    (executeWithWait env (Except.ok ())
        [{ condition := "element_visible", selector := some sel,
           timeout := t }] n).2 = true := by
  refine ⟨rfl, rfl, ?_, ?_⟩
  · show (executeWithWait env (Except.ok ()) [_] n).1 = _
    unfold executeWithWait handleWaitFor handleSingleWait
    simp only [hv]
    rfl
  · show (executeWithWait env (Except.ok ()) [_] n).2 = true
    unfold executeWithWait handleWaitFor handleSingleWait
    simp only [hv]
    rfl

/-- Witness for `wait_conditions_after_action_and_fatal_on_timeout` in
the never-resolving environment with a single attempt. -/
theorem wait_conditions_after_action_and_fatal_on_timeout_witness :
    (executeWithWait neverEnv (Except.error "boom") [] 1).2 = false ∧
    handleSingleWait neverEnv
      { condition := "no_loading", selector := some "#x", timeout := none } =
      Except.ok () ∧
    (executeWithWait neverEnv (Except.ok ())
        [{ condition := "element_visible", selector := some "#x",
           timeout := none }] 1).1 =
      Except.error ("Action failed after " ++ toString (max 1 1) ++
        " attempts: " ++ ("Timeout waiting for selector " ++ "#x")) ∧
    (executeWithWait neverEnv (Except.ok ())
        [{ condition := "element_visible", selector := some "#x",
           timeout := none }] 1).2 = true := by
  exact wait_conditions_after_action_and_fatal_on_timeout neverEnv []
    "boom" "#x" 1 none rfl

/-! ## C9 — terminal failure reasons (`Explorer.explore`, executor.ts
1109-1232)

The exploration loop runs while `currentStep <= maxSteps`.  A
`goal_achieved` decision sets `session.status = 'completed'`; `abort`
or `stuck` logs `Exploration aborted: <reasoning>` and sets
`session.status = 'failed'`; a `continue` decision executes its batch
(only successful actions advance `currentStep`) and requests the next
decision, which is pushed onto `session.actions`.  An exception from
the exchange (e.g. the decision timeout) reaches the outer `catch`,
which logs `Exploration failed: …` and sets `session.status = 'failed'`.
After the loop, `currentStep > maxSteps` logs `Max steps reached (N)`
and sets `session.status = 'failed'`.  The `ExplorationSession` record
(types/ai.ts 109-120) has **no failure-reason field**: only `status`
plus the histories; the distinct messages exist only on the console.

`batchOks` lists the environment-chosen success outcome of each action
of the decision's batch.  Console output is modelled as a trace of the
distinct `console.log` call sites with their payloads. -/

inductive LogEvent
  | maxStepsReached (maxSteps : Nat)
  | explorationAborted (reasoning : String)
  | explorationFailed
  deriving Repr, DecidableEq

/-- The slice of the `ExplorationSession` record relevant to terminal
distinguishability: the final `status` and the `decision` tags of the
actions pushed into `session.actions`. -/
structure SessionRecord where
  status : String
  recordedDecisions : List String
  deriving Repr, DecidableEq

/-- Successful/attempted outcomes of a batch under the effective
stop-on-error flag (the loop of executor.ts 1134-1154, outcomes
only). -/
def attemptedOks (stop : Bool) : List Bool → List Bool
  | [] => []
  | ok :: rest =>
      if ok then ok :: attemptedOks stop rest
      else if stop then [ok]
      else ok :: attemptedOks stop rest

/-- The exploration loop from the point where `currentStep` steps have
been taken and `current` is the decision in hand, with `decisions` the
stream of further exchange results, `recDecs` the decision tags already
recorded in the session and `logs` the console trace so far. -/
def exploreGo (maxSteps : Nat) :
    List (Except ExchangeError AIAction) → Nat → AIAction →
    List String → List LogEvent → SessionRecord × List LogEvent
  | decisions, currentStep, current, recDecs, logs =>
    if maxSteps < currentStep then
      ({ status := "failed", recordedDecisions := recDecs },
       logs ++ [LogEvent.maxStepsReached maxSteps])
    else if current.decision = "goal_achieved" then
      ({ status := "completed", recordedDecisions := recDecs }, logs)
    else if current.decision = "abort" ∨ current.decision = "stuck" then
      ({ status := "failed", recordedDecisions := recDecs },
       logs ++ [LogEvent.explorationAborted current.reasoning])
    else
      match decisions with
      | [] => ({ status := "running", recordedDecisions := recDecs }, logs)
      | Except.error _ :: _ =>
          ({ status := "failed", recordedDecisions := recDecs },
           logs ++ [LogEvent.explorationFailed])
      | Except.ok a :: rest =>
          exploreGo maxSteps rest
            (currentStep +
              (attemptedOks (effectiveStopOnError current.stopOnError)
                current.batchOks).count true)
            a (recDecs ++ [a.decision]) logs

/-- Counterexample to C9: a budget-exhausted run and a protocol-timeout
run produce **identical** session records — status `"failed"` and the
same recorded decision tags — so the recorded session carries no
distinct "budget exhausted" reason; an explicit abort also records
plain `"failed"`. -/
theorem budget_reason_counterexample :
    (exploreGo 1 [] 2 { decision := "continue" } ["continue"] []).1 =
      (exploreGo 2 [Except.error (ExchangeError.timeout ACTION_FILE)] 2
        { decision := "continue" } ["continue"] []).1 ∧
    (exploreGo 1 [] 2 { decision := "continue" } ["continue"] []).1.status =
      "failed" ∧
    (exploreGo 2 [] 2 { decision := "abort", reasoning := "cannot proceed" }
        ["continue", "abort"] []).1.status = "failed" := by
  exact ⟨rfl, rfl, rfl⟩

/-- C9 (amended): reaching the max-step budget without a terminal
decision ends the session with status `"failed"` and emits the distinct
console message `Max steps reached (N)`; an explicit abort/stuck and a
protocol timeout also end with status `"failed"` but emit the different
console messages `Exploration aborted: …` / `Exploration failed …`.
The three failure modes are distinguishable in the console trace, but
the session record itself carries no distinct reason — its status is
the same `"failed"` in all three cases. -/
theorem exploration_terminal_reasons
    (maxSteps currentStep : Nat)
    (decisions : List (Except ExchangeError AIAction))
    (err : ExchangeError) (rest : List (Except ExchangeError AIAction))
    (current : AIAction) (recDecs : List String) (logs : List LogEvent) :
    (maxSteps < currentStep →
      exploreGo maxSteps decisions currentStep current recDecs logs =
        ({ status := "failed", recordedDecisions := recDecs },
         logs ++ [LogEvent.maxStepsReached maxSteps])) ∧
    (currentStep ≤ maxSteps →
      (current.decision = "abort" ∨ current.decision = "stuck") →
      exploreGo maxSteps decisions currentStep current recDecs logs =
        ({ status := "failed", recordedDecisions := recDecs },
         logs ++ [LogEvent.explorationAborted current.reasoning])) ∧
    (currentStep ≤ maxSteps → current.decision ≠ "goal_achieved" →
      current.decision ≠ "abort" → current.decision ≠ "stuck" →
      exploreGo maxSteps (Except.error err :: rest) currentStep current
          recDecs logs =
        ({ status := "failed", recordedDecisions := recDecs },
         logs ++ [LogEvent.explorationFailed])) ∧
    (∀ (m : Nat) (r : String),
      LogEvent.maxStepsReached m ≠ LogEvent.explorationAborted r) ∧
    (∀ m : Nat, LogEvent.maxStepsReached m ≠ LogEvent.explorationFailed) := by
  refine ⟨?_, ?_, ?_, ?_, ?_⟩
  · intro h
    unfold exploreGo
    rw [if_pos h]
  · intro h hterm
    have hne : ¬ (current.decision = "goal_achieved") := by
      rcases hterm with h1 | h1 <;> rw [h1] <;> decide
    unfold exploreGo
    rw [if_neg (by omega), if_neg hne, if_pos hterm]
  · intro h hg ha hs
    unfold exploreGo
    rw [if_neg (by omega), if_neg hg, if_neg (by
      rintro (h1 | h1)
      exacts [ha h1, hs h1])]
  · intro m r hh
    exact LogEvent.noConfusion hh
  · intro m hh
    exact LogEvent.noConfusion hh

/-- Witness for `exploration_terminal_reasons`: a concrete
budget-exhausted run, a concrete abort and a concrete protocol-timeout
run, all ending with status `"failed"` but with the distinct console
events. -/
theorem exploration_terminal_reasons_witness :
    exploreGo 1 [] 2 { decision := "continue" } ["continue"] [] =
      ({ status := "failed", recordedDecisions := ["continue"] },
       [LogEvent.maxStepsReached 1]) ∧
    exploreGo 2 [] 2 { decision := "abort", reasoning := "blocked" }
        ["continue"] [] =
      ({ status := "failed", recordedDecisions := ["continue"] },
       [LogEvent.explorationAborted "blocked"]) ∧
    exploreGo 2 [Except.error (ExchangeError.timeout ACTION_FILE)] 2
        { decision := "continue" } ["continue"] [] =
      ({ status := "failed", recordedDecisions := ["continue"] },
       [LogEvent.explorationFailed]) ∧
    LogEvent.maxStepsReached 1 ≠ LogEvent.explorationAborted "blocked" := by
  refine ⟨?_, ?_, ?_, ?_⟩
  · exact (exploration_terminal_reasons 1 2 []
      (ExchangeError.timeout ACTION_FILE) [] { decision := "continue" }
      ["continue"] []).1 (by omega)
  · exact (exploration_terminal_reasons 2 2 []
      (ExchangeError.timeout ACTION_FILE) []
      { decision := "abort", reasoning := "blocked" }
      ["continue"] []).2.1 (by omega) (Or.inl rfl)
  · exact (exploration_terminal_reasons 2 2 []
      (ExchangeError.timeout ACTION_FILE) [] { decision := "continue" }
      ["continue"] []).2.2.1 (by omega) (by decide) (by decide) (by decide)
  · exact (exploration_terminal_reasons 1 2 []
      (ExchangeError.timeout ACTION_FILE) [] { decision := "continue" }
      ["continue"] []).2.2.2.1 1 "blocked"

end FePilot
